import Mathlib

/-!
Verification of the mapped-grid metric pipeline (mesh/mapped.py).

The module derives, from a user-supplied symbolic mapping of logical
coordinates to physical coordinates, the cell area element `kappa`, the two
face line elements `gamma_fcx` / `gamma_fcy`, and the per-face rotation
matrices, and evaluates them over every grid location including ghost zones.

Embedding notes:
 - sympy performs exact symbolic differentiation, so a mapping is embedded
   as its two component functions together with their four partial
   derivatives (the expressions sympy's `diff` produces).  `sympy.simplify`
   is value-preserving and is dropped.
 - numpy arrays are embedded as a recorded shape plus a total value
   function; loop bodies that write one independent entry per location
   become the corresponding pointwise definition, zero outside the written
   footprint (the scratch array's initial contents).
 - the construction-time orthonormality assertion
   (`assert_array_almost_equal`, decimal=6, i.e. tolerance 1.5e-6) becomes
   an `Option`-valued constructor gated on the check; the random substitution
   points `random() + 0.01` are explicit parameters.
 - mutable Python objects relevant to the clone operation live in an
   explicit heap (a list of field arrays) so that aliasing and deep-copy
   facts are expressible.
-/

noncomputable section

namespace Pyro

/-- Modelled from the spec: the base uniform grid `Grid2d` (mesh/patch.py is
not part of the analysed source).  It records the zone counts, the ghost-cell
count and the domain extents; `qx = nx + 2 ng`, `qy = ny + 2 ng`,
`dx = (xmax - xmin)/nx`, and cell centers `x[i] = xmin + (i - ng + 0.5) dx`
following the layout diagram in the source docstring. -/
structure Grid2d where
  nx : Nat
  ny : Nat
  ng : Nat
  xmin : ℝ
  xmax : ℝ
  ymin : ℝ
  ymax : ℝ

/-- Modelled from the spec: total number of zones in x, including ghosts. -/
def Grid2d.qx (g : Grid2d) : Nat := g.nx + 2 * g.ng

/-- Modelled from the spec: total number of zones in y, including ghosts. -/
def Grid2d.qy (g : Grid2d) : Nat := g.ny + 2 * g.ng

/-- Modelled from the spec: zone width in x. -/
def Grid2d.dx (g : Grid2d) : ℝ := (g.xmax - g.xmin) / (g.nx : ℝ)

/-- Modelled from the spec: zone width in y. -/
def Grid2d.dy (g : Grid2d) : ℝ := (g.ymax - g.ymin) / (g.ny : ℝ)

/-- Modelled from the spec: x-coordinate of the cell center at index (i, j). -/
def Grid2d.x2d (g : Grid2d) (i _j : Nat) : ℝ :=
  g.xmin + (((i : ℝ) - (g.ng : ℝ)) + 0.5) * g.dx

/-- Modelled from the spec: y-coordinate of the cell center at index (i, j). -/
def Grid2d.y2d (g : Grid2d) (_i j : Nat) : ℝ :=
  g.ymin + (((j : ℝ) - (g.ng : ℝ)) + 0.5) * g.dy

/-- A symbolic mapping from logical to physical coordinates: its two
components `f0`, `f1` together with the four partial derivatives that
sympy's exact `diff` produces for them.  The constructed grid appends the
free symbol `z` as a third component (`map_func(self).col_join(Matrix([z]))`);
the x/y-derivatives of that component vanish. -/
structure MapFunc where
  f0 : ℝ → ℝ → ℝ
  f1 : ℝ → ℝ → ℝ
  d0x : ℝ → ℝ → ℝ
  d0y : ℝ → ℝ → ℝ
  d1x : ℝ → ℝ → ℝ
  d1y : ℝ → ℝ → ℝ

/-- Dot product of 3-vectors, as used by the grid's `norm` helper. -/
def dot3 (u v : Fin 3 → ℝ) : ℝ := u 0 * v 0 + u 1 * v 1 + u 2 * v 2

/-- The grid's static `norm` helper: `sqrt(z.dot(z))`, on 3-vectors. -/
def norm3 (v : Fin 3 → ℝ) : ℝ := Real.sqrt (dot3 v v)

/-- Cross product of 3-vectors (sympy's `Matrix.cross`). -/
def cross3 (u v : Fin 3 → ℝ) : Fin 3 → ℝ :=
  ![u 1 * v 2 - u 2 * v 1, u 2 * v 0 - u 0 * v 2, u 0 * v 1 - u 1 * v 0]

/-- Derivative of the z-lifted map with respect to x: `self.map.diff(x)`. -/
def mapDiffX (m : MapFunc) (X Y : ℝ) : Fin 3 → ℝ := ![m.d0x X Y, m.d1x X Y, 0]

/-- Derivative of the z-lifted map with respect to y: `self.map.diff(y)`. -/
def mapDiffY (m : MapFunc) (X Y : ℝ) : Fin 3 → ℝ := ![m.d0y X Y, m.d1y X Y, 0]

/-- Translation of `sym_area_element`: the norm of the cross product of the
two basis vectors `map.diff(x)` and `map.diff(y)`. -/
def sym_area_element (m : MapFunc) (X Y : ℝ) : ℝ :=
  norm3 (cross3 (mapDiffX m X Y) (mapDiffY m X Y))

/-- Translation of the first component `l1` of `sym_line_elements`:
`sqrt(map[0].diff(y)**2 + map[1].diff(y)**2)`. -/
def sym_line_element_x (m : MapFunc) (X Y : ℝ) : ℝ :=
  Real.sqrt ((m.d0y X Y) ^ 2 + (m.d1y X Y) ^ 2)

/-- Translation of the second component `l2` of `sym_line_elements`:
`sqrt(map[0].diff(x)**2 + map[1].diff(x)**2)`. -/
def sym_line_element_y (m : MapFunc) (X Y : ℝ) : ℝ :=
  Real.sqrt ((m.d0x X Y) ^ 2 + (m.d1x X Y) ^ 2)

/-- Norm of a 2-vector, as applied to the rows of the rotation matrices. -/
def norm2 (v : Fin 2 → ℝ) : ℝ := Real.sqrt (v 0 * v 0 + v 1 * v 1)

/-- Translation of the `Rx` half of `sym_rotation_matrix`: rows
`(map[1].diff(y), map[0].diff(y))` and `(-map[0].diff(y), map[1].diff(y))`,
each row divided by its own norm. -/
def symRx (m : MapFunc) (X Y : ℝ) : Matrix (Fin 2) (Fin 2) ℝ :=
  let row0 : Fin 2 → ℝ := ![m.d1y X Y, m.d0y X Y]
  let row1 : Fin 2 → ℝ := ![-(m.d0y X Y), m.d1y X Y]
  Matrix.of ![fun l => row0 l / norm2 row0, fun l => row1 l / norm2 row1]

/-- Translation of the `Ry` half of `sym_rotation_matrix`: rows
`(map[0].diff(x), map[1].diff(x))` and `(-map[1].diff(x), map[0].diff(x))`,
each row divided by its own norm. -/
def symRy (m : MapFunc) (X Y : ℝ) : Matrix (Fin 2) (Fin 2) ℝ :=
  let row0 : Fin 2 → ℝ := ![m.d0x X Y, m.d1x X Y]
  let row1 : Fin 2 → ℝ := ![-(m.d1x X Y), m.d0x X Y]
  Matrix.of ![fun l => row0 l / norm2 row0, fun l => row1 l / norm2 row1]

/-- Python shape argument of `scratch_array`: either a bare number or an
arbitrarily nested tuple of shapes. -/
inductive PyShape where
  | nat (n : Nat) : PyShape
  | tup (ts : List PyShape) : PyShape

mutual

/-- Translation of the nested `flatten` helper inside `scratch_array`. -/
def flattenShape : PyShape → List Nat
  | .nat n => [n]
  | .tup ts => flattenShapeList ts

/-- Flattening of a tuple of shapes: `flatten(t[0]) + flatten(t[1:])`. -/
def flattenShapeList : List PyShape → List Nat
  | [] => []
  | t :: ts => flattenShape t ++ flattenShapeList ts

end

/-- The `nvar == 1` test of `scratch_array` (a tuple never equals 1). -/
def isOneShape : PyShape → Bool
  | .nat 1 => true
  | _ => false

/-- Shape of the array allocated by `scratch_array`: `(qx, qy)` for the
default argument, `(qx, qy) + flatten(nvar)` otherwise. -/
def scratchShape (g : Grid2d) (nv : PyShape) : List Nat :=
  if isOneShape nv then [g.qx, g.qy] else [g.qx, g.qy] ++ flattenShape nv

/-- A 2-d grid array: its numpy shape and its entries. -/
structure Arr2 where
  shape : List Nat
  val : Nat → Nat → ℝ

/-- A 4-d grid array (one small matrix per grid location). -/
structure Arr4 where
  shape : List Nat
  val : Nat → Nat → Nat → Nat → ℝ

/-- Translation of `calculate_metric_elements`: three scratch arrays whose
in-footprint entries are the lambdified area element at the cell center and
the two line elements at the face centers, offset by half a zone width.
Entries outside the `(qx, qy)` footprint keep the scratch array's zeros. -/
def calculate_metric_elements (m : MapFunc) (g : Grid2d) : Arr2 × Arr2 × Arr2 :=
  (⟨scratchShape g (.nat 1), fun i j =>
      if i < g.qx ∧ j < g.qy then
        sym_area_element m (g.x2d i j) (g.y2d i j)
      else 0⟩,
   ⟨scratchShape g (.nat 1), fun i j =>
      if i < g.qx ∧ j < g.qy then
        sym_line_element_x m (g.x2d i j - 0.5 * g.dx) (g.y2d i j)
      else 0⟩,
   ⟨scratchShape g (.nat 1), fun i j =>
      if i < g.qx ∧ j < g.qy then
        sym_line_element_y m (g.x2d i j) (g.y2d i j - 0.5 * g.dy)
      else 0⟩)

/-- Entry of a 2x2 matrix at Nat indices (zero out of range). -/
def mat2get (M : Matrix (Fin 2) (Fin 2) ℝ) (r c : Nat) : ℝ :=
  if hr : r < 2 then if hc : c < 2 then M ⟨r, hr⟩ ⟨c, hc⟩ else 0 else 0

/-- Translation of the closure `R_fcx` returned by
`calculate_rotation_matrices`: at every grid location the `nvar x nvar`
slice is `np.eye(nvar)` except that the rows and columns in
`ixmom:iymom+1` are overwritten with `sym_Rx` substituted at the x-face
coordinates `(x2d - 0.5 dx, y2d)`. -/
def calculate_R_fcx (m : MapFunc) (g : Grid2d) (nvar ixmom iymom : Nat) : Arr4 :=
  ⟨scratchShape g (.tup [.nat nvar, .nat nvar]),
   fun i j k l =>
     if i < g.qx ∧ j < g.qy ∧ k < nvar ∧ l < nvar then
       if ixmom ≤ k ∧ k ≤ iymom ∧ ixmom ≤ l ∧ l ≤ iymom then
         mat2get (symRx m (g.x2d i j - 0.5 * g.dx) (g.y2d i j))
           (k - ixmom) (l - ixmom)
       else if k = l then 1 else 0
     else 0⟩

/-- Translation of the closure `R_fcy` returned by
`calculate_rotation_matrices`: as `R_fcx`, but with `sym_Ry` substituted at
the y-face coordinates `(x2d, y2d - 0.5 dy)`. -/
def calculate_R_fcy (m : MapFunc) (g : Grid2d) (nvar ixmom iymom : Nat) : Arr4 :=
  ⟨scratchShape g (.tup [.nat nvar, .nat nvar]),
   fun i j k l =>
     if i < g.qx ∧ j < g.qy ∧ k < nvar ∧ l < nvar then
       if ixmom ≤ k ∧ k ≤ iymom ∧ ixmom ≤ l ∧ l ≤ iymom then
         mat2get (symRy m (g.x2d i j) (g.y2d i j - 0.5 * g.dy))
           (k - ixmom) (l - ixmom)
       else if k = l then 1 else 0
     else 0⟩

/-- Translation of `physical_coords`: lambdify the two map components and
apply them elementwise; arguments default to the grid's cell-center
coordinate arrays. -/
def physical_coords (m : MapFunc) (g : Grid2d)
    (xs ys : Option (Nat → Nat → ℝ)) :
    (Nat → Nat → ℝ) × (Nat → Nat → ℝ) :=
  let xa := xs.getD g.x2d
  let ya := ys.getD g.y2d
  (fun i j => m.f0 (xa i j) (ya i j), fun i j => m.f1 (xa i j) (ya i j))

/-- The 2x2 identity `np.eye(2)` that the orthonormality assertion compares
against. -/
def eye2 : Matrix (Fin 2) (Fin 2) ℝ := 1

/-- Entrywise closeness to the identity at tolerance `1.5e-6`, the criterion
of `assert_array_almost_equal` at its default `decimal=6`. -/
def almostEye2 (M : Matrix (Fin 2) (Fin 2) ℝ) : Prop :=
  ∀ k l : Fin 2, |M k l - eye2 k l| < 1.5e-6

/-- The construction-time sanity assertion of `sym_rotation_matrix`:
`Rx Rxᵀ` and `Ry Ryᵀ`, substituted at the randomized points `rx` and `ry`
(each drawn as `random() + 0.01` per coordinate), are entrywise close to the
identity.  Substitution commutes with the matrix product, so the check is
stated on the numerically evaluated matrices. -/
def rotation_check (m : MapFunc) (rx ry : ℝ × ℝ) : Prop :=
  almostEye2 (symRx m rx.1 rx.2 * (symRx m rx.1 rx.2).transpose) ∧
  almostEye2 (symRy m ry.1 ry.2 * (symRy m ry.1 ry.2).transpose)

/-- The mapped grid: the base grid, the mapping, the three evaluated metric
arrays, and the two rotation-matrix builder functions. -/
structure MappedGrid2d where
  grid : Grid2d
  map : MapFunc
  kappa : Arr2
  gamma_fcx : Arr2
  gamma_fcy : Arr2
  R_fcx : Nat → Nat → Nat → Arr4
  R_fcy : Nat → Nat → Nat → Arr4

/-- The fields a successful `MappedGrid2d.__init__` ends with. -/
def mkMappedGridRaw (m : MapFunc) (nx ny ng : Nat)
    (xmin xmax ymin ymax : ℝ) : MappedGrid2d :=
  let g : Grid2d := ⟨nx, ny, ng, xmin, xmax, ymin, ymax⟩
  { grid := g
    map := m
    kappa := (calculate_metric_elements m g).1
    gamma_fcx := (calculate_metric_elements m g).2.1
    gamma_fcy := (calculate_metric_elements m g).2.2
    R_fcx := calculate_R_fcx m g
    R_fcy := calculate_R_fcy m g }

open Classical in
/-- Translation of `MappedGrid2d.__init__`: construction succeeds exactly
when the orthonormality assertion inside `sym_rotation_matrix` holds at the
sampled random points; a failed `assert_array_almost_equal` raises and no
grid object is produced. -/
def mkMappedGrid (m : MapFunc) (nx ny ng : Nat) (xmin xmax ymin ymax : ℝ)
    (rx ry : ℝ × ℝ) : Option MappedGrid2d :=
  if rotation_check m rx ry then
    some (mkMappedGridRaw m nx ny ng xmin xmax ymin ymax)
  else none

/-- A cell-centered field array: indexed by (i, j, variable). -/
abbrev FieldArr : Type := Nat → Nat → Nat → ℝ

/-- The all-zero field array (contents of a freshly created data store). -/
def zeroField : FieldArr := fun _ _ _ => 0

/-- A heap of mutable field arrays; numpy arrays are heap objects and
python assignment shares references, while `.copy()` allocates. -/
abbrev Heap : Type := List FieldArr

/-- Allocate a fresh array on the heap, returning its reference. -/
def heapAlloc (H : Heap) (a : FieldArr) : Nat × Heap := (H.length, H ++ [a])

/-- Read the array behind a reference (zero array for a dangling one). -/
def heapRead (H : Heap) (r : Nat) : FieldArr := H.getD r zeroField

/-- Overwrite the array behind a reference (in-place mutation). -/
def heapWrite (H : Heap) (r : Nat) (a : FieldArr) : Heap := H.set r a

/-- A boundary-condition spec; opaque to this module. -/
abbrev BCSpec : Type := String

/-- Default boundary-condition spec used when a dict lookup misses. -/
def defaultBC : BCSpec := ""

/-- Realized rotation-matrix storage on a data container: the constructor
stores the empty list `[]`; `make_rotation_matrices` replaces it with a
built array. -/
inductive RotSlot where
  | empty : RotSlot
  | built (a : Arr4) : RotSlot

/-- Modelled from the spec (base container) plus the source's
`MappedCellCenterData2d`: a cell-centered field store bound to a mapped
grid, with registered variable names, their boundary-condition specs, a
reference to the field-data array (absent until `create`), auxiliary state,
the derived-variable cache, and the two realized rotation-matrix slots. -/
structure MappedCellCenterData2d where
  grid : MappedGrid2d
  dtype : String
  names : List String
  BCs : List (String × BCSpec)
  dataRef : Option Nat
  aux : List (String × ℝ)
  derives : List String
  R_fcx : RotSlot
  R_fcy : RotSlot

/-- Translation of `MappedCellCenterData2d.__init__`: the base constructor
state with both rotation slots set to the empty list. -/
def mkMappedCC (g : MappedGrid2d) (dtype : String) : MappedCellCenterData2d :=
  ⟨g, dtype, [], [], none, [], [], .empty, .empty⟩

/-- Modelled from the spec (base container): `register_var` records a
variable name together with its boundary-condition spec. -/
def register_var (c : MappedCellCenterData2d) (nm : String) (bc : BCSpec) :
    MappedCellCenterData2d :=
  { c with names := c.names ++ [nm], BCs := c.BCs ++ [(nm, bc)] }

/-- Modelled from the spec (base container): `create` allocates the zeroed
field-data storage for the registered variables. -/
def create (c : MappedCellCenterData2d) (H : Heap) :
    MappedCellCenterData2d × Heap :=
  let p := heapAlloc H zeroField
  ({ c with dataRef := some p.1 }, p.2)

/-- The variable layout the solver supplies: total variable count and the
two momentum component indices. -/
structure Ivars where
  nvar : Nat
  ixmom : Nat
  iymom : Nat

/-- Translation of `make_rotation_matrices`: invoke the grid's two
rotation-matrix functions with the container's variable layout and store
the results, replacing whatever the slots held. -/
def make_rotation_matrices (c : MappedCellCenterData2d) (iv : Ivars) :
    MappedCellCenterData2d :=
  { c with
    R_fcx := .built (c.grid.R_fcx iv.nvar iv.ixmom iv.iymom)
    R_fcy := .built (c.grid.R_fcy iv.nvar iv.ixmom iv.iymom) }

/-- Modelled from the spec: a plain (unmapped) cell-centered data container,
which is not an instance of `MappedCellCenterData2d`. -/
structure PlainCellCenterData2d where
  names : List String
  dataRef : Option Nat

/-- The dynamically-typed argument of `mapped_cell_center_data_clone`:
either a mapped container or a plain one (the `isinstance` test separates
them). -/
inductive CloneArg where
  | mapped (d : MappedCellCenterData2d) : CloneArg
  | plain (d : PlainCellCenterData2d) : CloneArg

/-- The message of `msg.fail` in the clone path (spelled with an escaped
apostrophe). -/
def cloneFailMsg : String := "Can\x27t clone object"

/-- The loop `for n in range(old.nvar): new.register_var(names[n],
BCs[names[n]])`, with the dict access modelled by association-list lookup. -/
def registerAll (bcs : List (String × BCSpec)) :
    List String → MappedCellCenterData2d → MappedCellCenterData2d
  | [], c => c
  | nm :: rest, c =>
      registerAll bcs rest (register_var c nm ((bcs.lookup nm).getD defaultBC))

/-- Translation of `mapped_cell_center_data_clone`: reject non-mapped
input via `msg.fail`; otherwise build a fresh container on the same grid,
re-register every variable with its stored boundary-condition spec, create
storage, then copy auxiliary state, field data (a fresh heap allocation via
`.copy()`), the derived-variable cache and both rotation slots. -/
def mapped_cell_center_data_clone (arg : CloneArg) (H : Heap) :
    Except String (MappedCellCenterData2d × Heap) :=
  match arg with
  | .plain _ => .error cloneFailMsg
  | .mapped old =>
      let c0 := mkMappedCC old.grid old.dtype
      let c1 := registerAll old.BCs old.names c0
      let p := create c1 H
      let oldData : FieldArr :=
        match old.dataRef with
        | some r => heapRead p.2 r
        | none => zeroField
      let q := heapAlloc p.2 oldData
      .ok ({ p.1 with
              dataRef := some q.1
              aux := old.aux
              derives := old.derives
              R_fcx := old.R_fcx
              R_fcy := old.R_fcy }, q.2)

/-- The identity mapping: physical coordinates equal logical coordinates.
Its sympy partial derivatives are the constants 1 and 0. -/
def idMap : MapFunc :=
  ⟨fun X _ => X, fun _ Y => Y, fun _ _ => 1, fun _ _ => 0, fun _ _ => 0,
   fun _ _ => 1⟩

/-- A degenerate constant mapping (zero Jacobian everywhere); its rotation
matrices fail the orthonormality assertion. -/
def constMap : MapFunc :=
  ⟨fun _ _ => 0, fun _ _ => 0, fun _ _ => 0, fun _ _ => 0, fun _ _ => 0,
   fun _ _ => 0⟩

/-- The concrete scenario grid: nx = 4, ny = 4, ng = 1 on the unit square. -/
def grid441 : Grid2d := ⟨4, 4, 1, 0, 1, 0, 1⟩

/-- The mapped grid the concrete scenario constructs. -/
def idMappedGrid : MappedGrid2d := mkMappedGridRaw idMap 4 4 1 0 1 0 1

/-- Variable name used by the concrete clone scenario. -/
def densityName : String := "density"

/-- Boundary-condition spec used by the concrete clone scenario. -/
def reflectBC : BCSpec := "reflect"

/-- Data type tag used by the concrete clone scenario. -/
def float64 : String := "float64"

/-- A concrete mapped data container with one registered variable and
created storage, for exercising the clone operation. -/
def oldSample : MappedCellCenterData2d :=
  { grid := idMappedGrid
    dtype := float64
    names := [densityName]
    BCs := [(densityName, reflectBC)]
    dataRef := some 0
    aux := []
    derives := []
    R_fcx := .empty
    R_fcy := .empty }

/-- A one-array heap holding `oldSample`'s field data. -/
def heapSample : Heap := [zeroField]

/-- A concrete plain (unmapped) container, rejected by the clone path. -/
def plainSample : PlainCellCenterData2d := ⟨[densityName], some 0⟩

/-- A concrete variable layout: four variables, momenta at indices 1, 2. -/
def ivarsSample : Ivars := ⟨4, 1, 2⟩

/-!  Helper lemmas. -/

theorem symRx_idMap (X Y : ℝ) : symRx idMap X Y = 1 := by
  ext k l
  fin_cases k <;> fin_cases l <;>
    simp [symRx, idMap, norm2, Matrix.one_apply]

theorem symRy_idMap (X Y : ℝ) : symRy idMap X Y = 1 := by
  ext k l
  fin_cases k <;> fin_cases l <;>
    simp [symRy, idMap, norm2, Matrix.one_apply]

theorem rotation_check_idMap (rx ry : ℝ × ℝ) : rotation_check idMap rx ry := by
  constructor <;> intro k l <;>
    simp [symRx_idMap, symRy_idMap, eye2, Matrix.transpose_one] <;>
    norm_num

theorem mk_idMap_eq :
    mkMappedGrid idMap 4 4 1 0 1 0 1 (0.5, 0.5) (0.5, 0.5) = some idMappedGrid := by
  unfold mkMappedGrid
  rw [if_pos (rotation_check_idMap _ _)]
  rfl

theorem sym_area_element_idMap (X Y : ℝ) : sym_area_element idMap X Y = 1 := by
  simp [sym_area_element, idMap, norm3, dot3, cross3, mapDiffX, mapDiffY]

theorem sym_line_element_x_idMap (X Y : ℝ) : sym_line_element_x idMap X Y = 1 := by
  simp [sym_line_element_x, idMap]

theorem sym_line_element_y_idMap (X Y : ℝ) : sym_line_element_y idMap X Y = 1 := by
  simp [sym_line_element_y, idMap]

theorem symRx_constMap (X Y : ℝ) : symRx constMap X Y = 0 := by
  ext k l
  fin_cases k <;> fin_cases l <;> simp [symRx, constMap, norm2]

theorem not_rotation_check_constMap (rx ry : ℝ × ℝ) :
    ¬rotation_check constMap rx ry := by
  intro h
  have h0 := h.1 0 0
  rw [symRx_constMap] at h0
  simp [eye2, Matrix.one_apply] at h0
  norm_num at h0

/-!  Claim theorems. -/

/-- C1, counterexample: on the concrete scenario (identity mapping, nx = 4,
ny = 4, ng = 1 on the unit square) construction succeeds, but the code
stores the exact area element of the identity map, which is 1, not
dx·dy = 0.0625, at entry (0, 0) of kappa. -/
theorem c1_counterexample :
    mkMappedGrid idMap 4 4 1 0 1 0 1 (0.5, 0.5) (0.5, 0.5) = some idMappedGrid ∧
    idMappedGrid.kappa.val 0 0 = 1 ∧
    idMappedGrid.kappa.val 0 0 ≠ (0.0625 : ℝ) := by
  have hv : idMappedGrid.kappa.val 0 0 = 1 := by
    simp [idMappedGrid, mkMappedGridRaw, calculate_metric_elements,
      Grid2d.qx, Grid2d.qy, sym_area_element_idMap]
  exact ⟨mk_idMap_eq, hv, by rw [hv]; norm_num⟩

/-- C1, amended: for the identity mapping every in-footprint entry of kappa,
gamma_fcx and gamma_fcy equals 1 (the exact area and line elements of the
identity map, rather than dx·dy, dy and dx), and both symbolic face rotation
matrices reduce to the identity at every location; on the nx = 4, ny = 4,
ng = 1 unit-square grid this gives the value 1 throughout the 6×6
footprint. -/
theorem c1_identity_metric (g : Grid2d) (i j : Nat)
    (hi : i < g.qx) (hj : j < g.qy) :
    (calculate_metric_elements idMap g).1.val i j = 1 ∧
    (calculate_metric_elements idMap g).2.1.val i j = 1 ∧
    (calculate_metric_elements idMap g).2.2.val i j = 1 ∧
    (∀ X Y : ℝ, symRx idMap X Y = 1 ∧ symRy idMap X Y = 1) := by
  refine ⟨?_, ?_, ?_, fun X Y => ⟨symRx_idMap X Y, symRy_idMap X Y⟩⟩ <;>
    simp [calculate_metric_elements, hi, hj, sym_area_element_idMap,
      sym_line_element_x_idMap, sym_line_element_y_idMap]

/-- C1, witness for the amended theorem: the concrete scenario grid, at
entry (0, 0). -/
theorem c1_identity_metric_witness :
    0 < Grid2d.qx grid441 ∧ 0 < Grid2d.qy grid441 ∧
    (calculate_metric_elements idMap grid441).1.val 0 0 = 1 :=
  ⟨by decide, by decide,
   (c1_identity_metric grid441 0 0 (by decide) (by decide)).1⟩

/-- C2: for every constructed mapped grid and every (i, j) of the full
(qx, qy) footprint, kappa is the norm of the cross product of the lifted
mapping's two partial-derivative vectors at the cell center, gamma_fcx is
the x-line element at (x - dx/2, y), and gamma_fcy is the y-line element at
(x, y - dy/2). -/
theorem c2_metric_from_map (m : MapFunc) (nx ny ng : Nat)
    (xmin xmax ymin ymax : ℝ) (rx ry : ℝ × ℝ) (G : MappedGrid2d)
    (hG : mkMappedGrid m nx ny ng xmin xmax ymin ymax rx ry = some G)
    (i j : Nat) (hi : i < G.grid.qx) (hj : j < G.grid.qy) :
    G.kappa.val i j =
      norm3 (cross3 (mapDiffX m (G.grid.x2d i j) (G.grid.y2d i j))
        (mapDiffY m (G.grid.x2d i j) (G.grid.y2d i j))) ∧
    G.gamma_fcx.val i j =
      Real.sqrt
        ((m.d0y (G.grid.x2d i j - 0.5 * G.grid.dx) (G.grid.y2d i j)) ^ 2 +
         (m.d1y (G.grid.x2d i j - 0.5 * G.grid.dx) (G.grid.y2d i j)) ^ 2) ∧
    G.gamma_fcy.val i j =
      Real.sqrt
        ((m.d0x (G.grid.x2d i j) (G.grid.y2d i j - 0.5 * G.grid.dy)) ^ 2 +
         (m.d1x (G.grid.x2d i j) (G.grid.y2d i j - 0.5 * G.grid.dy)) ^ 2) := by
  unfold mkMappedGrid at hG
  by_cases h : rotation_check m rx ry
  · rw [if_pos h] at hG
    injection hG with hG2
    subst hG2
    simp only [mkMappedGridRaw] at hi hj ⊢
    refine ⟨?_, ?_, ?_⟩ <;>
      simp [calculate_metric_elements, hi, hj, sym_area_element,
        sym_line_element_x, sym_line_element_y]
  · rw [if_neg h] at hG
    exact Option.noConfusion hG

/-- C2, witness: the constructed identity-map grid at entry (0, 0). -/
theorem c2_metric_from_map_witness :
    idMappedGrid.kappa.val 0 0 =
      norm3 (cross3
        (mapDiffX idMap (idMappedGrid.grid.x2d 0 0) (idMappedGrid.grid.y2d 0 0))
        (mapDiffY idMap (idMappedGrid.grid.x2d 0 0) (idMappedGrid.grid.y2d 0 0))) :=
  (c2_metric_from_map idMap 4 4 1 0 1 0 1 (0.5, 0.5) (0.5, 0.5) idMappedGrid
    mk_idMap_eq 0 0 (by decide) (by decide)).1

/-- Orthonormality of a row-normalized 2x2 matrix with rows (p, q) and
(-q, p), provided the rows are nonzero. -/
theorem rot2_orthonormal (p q : ℝ) (h : p ≠ 0 ∨ q ≠ 0) :
    (Matrix.of ![fun l => (![p, q] : Fin 2 → ℝ) l / norm2 ![p, q],
                 fun l => (![-q, p] : Fin 2 → ℝ) l / norm2 ![-q, p]]) *
      (Matrix.of ![fun l => (![p, q] : Fin 2 → ℝ) l / norm2 ![p, q],
                 fun l => (![-q, p] : Fin 2 → ℝ) l / norm2 ![-q, p]]).transpose =
      1 := by
  have hpos : 0 < p * p + q * q := by
    rcases h with h | h <;>
      nlinarith [mul_self_pos.mpr h, mul_self_nonneg p, mul_self_nonneg q]
  have hs : Real.sqrt (p * p + q * q) * Real.sqrt (p * p + q * q) =
      p * p + q * q := Real.mul_self_sqrt hpos.le
  have hne : Real.sqrt (p * p + q * q) ≠ 0 :=
    ne_of_gt (Real.sqrt_pos.mpr hpos)
  have hn0 : norm2 ![p, q] = Real.sqrt (p * p + q * q) := by simp [norm2]
  have hn1 : norm2 ![-q, p] = Real.sqrt (p * p + q * q) := by
    unfold norm2
    congr 1
    simp
    ring
  ext k l
  simp only [Matrix.mul_apply, Matrix.transpose_apply, Fin.sum_univ_two]
  fin_cases k <;> fin_cases l <;>
    simp [hn0, hn1, Matrix.one_apply] <;>
    field_simp <;>
    nlinarith [hs]

/-- Orthonormality of the substituted x-face rotation matrix, when the
y-derivatives of the mapping do not both vanish there. -/
theorem symRx_mul_transpose (m : MapFunc) (X Y : ℝ)
    (h : m.d0y X Y ≠ 0 ∨ m.d1y X Y ≠ 0) :
    symRx m X Y * (symRx m X Y).transpose = 1 := by
  simpa [symRx] using rot2_orthonormal (m.d1y X Y) (m.d0y X Y) h.symm

/-- Orthonormality of the substituted y-face rotation matrix, when the
x-derivatives of the mapping do not both vanish there. -/
theorem symRy_mul_transpose (m : MapFunc) (X Y : ℝ)
    (h : m.d0x X Y ≠ 0 ∨ m.d1x X Y ≠ 0) :
    symRy m X Y * (symRy m X Y).transpose = 1 := by
  simpa [symRy] using rot2_orthonormal (m.d0x X Y) (m.d1x X Y) h

/-- C3: at every in-footprint location and for every valid layout
(iymom = ixmom + 1 < nvar), the built rotation array is the identity
outside the momentum rows/columns, its 2x2 momentum block is the symbolic
rotation matrix substituted at the face coordinates, and those blocks are
exactly orthonormal wherever the relevant derivative pair of the mapping is
nondegenerate. -/
theorem c3_rotation_builder (m : MapFunc) (g : Grid2d) (nvar ixmom iymom : Nat)
    (hiy : iymom = ixmom + 1) (hnv : iymom < nvar)
    (i j : Nat) (hi : i < g.qx) (hj : j < g.qy) :
    (∀ k l : Nat, k < nvar → l < nvar →
      (k < ixmom ∨ iymom < k ∨ l < ixmom ∨ iymom < l) →
      (calculate_R_fcx m g nvar ixmom iymom).val i j k l =
        (if k = l then 1 else 0) ∧
      (calculate_R_fcy m g nvar ixmom iymom).val i j k l =
        (if k = l then 1 else 0)) ∧
    (∀ a b : Fin 2,
      (calculate_R_fcx m g nvar ixmom iymom).val i j
          (ixmom + (a : Nat)) (ixmom + (b : Nat)) =
        symRx m (g.x2d i j - 0.5 * g.dx) (g.y2d i j) a b ∧
      (calculate_R_fcy m g nvar ixmom iymom).val i j
          (ixmom + (a : Nat)) (ixmom + (b : Nat)) =
        symRy m (g.x2d i j) (g.y2d i j - 0.5 * g.dy) a b) ∧
    ((m.d0y (g.x2d i j - 0.5 * g.dx) (g.y2d i j) ≠ 0 ∨
      m.d1y (g.x2d i j - 0.5 * g.dx) (g.y2d i j) ≠ 0) →
      symRx m (g.x2d i j - 0.5 * g.dx) (g.y2d i j) *
        (symRx m (g.x2d i j - 0.5 * g.dx) (g.y2d i j)).transpose = 1) ∧
    ((m.d0x (g.x2d i j) (g.y2d i j - 0.5 * g.dy) ≠ 0 ∨
      m.d1x (g.x2d i j) (g.y2d i j - 0.5 * g.dy) ≠ 0) →
      symRy m (g.x2d i j) (g.y2d i j - 0.5 * g.dy) *
        (symRy m (g.x2d i j) (g.y2d i j - 0.5 * g.dy)).transpose = 1) := by
  refine ⟨?_, ?_, fun h => symRx_mul_transpose m _ _ h,
    fun h => symRy_mul_transpose m _ _ h⟩
  · intro k l hk hl hout
    have hnb : ¬(ixmom ≤ k ∧ k ≤ iymom ∧ ixmom ≤ l ∧ l ≤ iymom) := by omega
    constructor <;>
    · dsimp only [calculate_R_fcx, calculate_R_fcy]
      rw [if_pos ⟨hi, hj, hk, hl⟩, if_neg hnb]
  · intro a b
    have hk : ixmom + (a : Nat) < nvar := by omega
    have hl : ixmom + (b : Nat) < nvar := by omega
    have hblk : ixmom ≤ ixmom + (a : Nat) ∧ ixmom + (a : Nat) ≤ iymom ∧
        ixmom ≤ ixmom + (b : Nat) ∧ ixmom + (b : Nat) ≤ iymom := by omega
    constructor <;>
    · dsimp only [calculate_R_fcx, calculate_R_fcy]
      rw [if_pos ⟨hi, hj, hk, hl⟩, if_pos hblk]
      simp [mat2get, Nat.add_sub_cancel_left, a.isLt, b.isLt]

/-- C3, witness: the identity map on the concrete scenario grid, layout
nvar = 4, ixmom = 1, iymom = 2, location (0, 0): the momentum block is
orthonormal. -/
theorem c3_rotation_builder_witness :
    symRx idMap (Grid2d.x2d grid441 0 0 - 0.5 * Grid2d.dx grid441)
        (Grid2d.y2d grid441 0 0) *
      (symRx idMap (Grid2d.x2d grid441 0 0 - 0.5 * Grid2d.dx grid441)
        (Grid2d.y2d grid441 0 0)).transpose = 1 :=
  (c3_rotation_builder idMap grid441 4 1 2 rfl (by decide) 0 0
    (by decide) (by decide)).2.2.1 (Or.inr one_ne_zero)

/-- C4: grid construction returns nothing exactly when the orthonormality
assertion fails at the sampled random points, and any grid it does return
carries the validated state; no grid with an unvalidated rotation matrix is
ever produced. -/
theorem c4_construction_gate (m : MapFunc) (nx ny ng : Nat)
    (xmin xmax ymin ymax : ℝ) (rx ry : ℝ × ℝ) :
    (mkMappedGrid m nx ny ng xmin xmax ymin ymax rx ry = none ↔
      ¬rotation_check m rx ry) ∧
    ∀ G, mkMappedGrid m nx ny ng xmin xmax ymin ymax rx ry = some G →
      rotation_check m rx ry ∧
      G = mkMappedGridRaw m nx ny ng xmin xmax ymin ymax := by
  unfold mkMappedGrid
  by_cases h : rotation_check m rx ry
  · rw [if_pos h]
    exact ⟨by simp [h], fun G hG => ⟨h, (Option.some.inj hG).symm⟩⟩
  · rw [if_neg h]
    exact ⟨by simp [h], fun G hG => by simp at hG⟩

/-- C4, witness: the degenerate constant mapping fails the assertion, so
construction fails fatally and returns no grid. -/
theorem c4_construction_gate_witness :
    mkMappedGrid constMap 2 2 1 0 1 0 1 (0.5, 0.5) (0.5, 0.5) = none :=
  (c4_construction_gate constMap 2 2 1 0 1 0 1 (0.5, 0.5) (0.5, 0.5)).1.mpr
    (not_rotation_check_constMap (0.5, 0.5) (0.5, 0.5))

/-- C5: the three metric arrays have shape (nx + 2 ng, ny + 2 ng) and the
arrays produced by the two rotation-matrix functions have shape
(nx + 2 ng, ny + 2 ng, nvar, nvar), for every grid and layout. -/
theorem c5_array_shapes (m : MapFunc) (g : Grid2d) (nvar ixmom iymom : Nat) :
    (calculate_metric_elements m g).1.shape = [g.nx + 2 * g.ng, g.ny + 2 * g.ng] ∧
    (calculate_metric_elements m g).2.1.shape = [g.nx + 2 * g.ng, g.ny + 2 * g.ng] ∧
    (calculate_metric_elements m g).2.2.shape = [g.nx + 2 * g.ng, g.ny + 2 * g.ng] ∧
    (calculate_R_fcx m g nvar ixmom iymom).shape =
      [g.nx + 2 * g.ng, g.ny + 2 * g.ng, nvar, nvar] ∧
    (calculate_R_fcy m g nvar ixmom iymom).shape =
      [g.nx + 2 * g.ng, g.ny + 2 * g.ng, nvar, nvar] := by
  refine ⟨?_, ?_, ?_, ?_, ?_⟩ <;>
    simp [calculate_metric_elements, calculate_R_fcx, calculate_R_fcy,
      scratchShape, isOneShape, flattenShape, flattenShapeList,
      Grid2d.qx, Grid2d.qy]

theorem heapRead_alloc_last (H : Heap) (a : FieldArr) :
    heapRead (H ++ [a]) H.length = a := by
  simp [heapRead, List.getD]

theorem heapRead_append (H : Heap) (a : FieldArr) (r : Nat) (h : r < H.length) :
    heapRead (H ++ [a]) r = heapRead H r := by
  simp [heapRead, List.getD, List.getElem?_append, h]

theorem heapRead_write_ne (H : Heap) (r r2 : Nat) (a : FieldArr)
    (h : r2 ≠ r) : heapRead (heapWrite H r2 a) r = heapRead H r := by
  simp [heapRead, heapWrite, List.getD, List.getElem?_set_ne h]

theorem registerAll_eq (bcs : List (String × BCSpec)) (l : List String)
    (c : MappedCellCenterData2d) :
    registerAll bcs l c =
      { c with
        names := c.names ++ l
        BCs := c.BCs ++ l.map (fun nm => (nm, (bcs.lookup nm).getD defaultBC)) } := by
  induction l generalizing c with
  | nil => simp [registerAll]
  | cons nm rest ih =>
      simp [registerAll, register_var, ih, List.append_assoc]

theorem lookup_map_self (l : List String) (f : String → BCSpec) (nm : String)
    (h : nm ∈ l) :
    (l.map (fun a => (a, f a))).lookup nm = some (f nm) := by
  induction l with
  | nil => cases h
  | cons a rest ih =>
      rcases List.mem_cons.mp h with h1 | h2
      · subst h1
        simp [List.lookup]
      · by_cases hna : nm = a
        · subst hna
          simp [List.lookup]
        · have hb : (nm == a) = false := beq_eq_false_iff_ne.mpr hna
          simp [List.lookup, hb, ih h2]

theorem clone_mapped_eq (old : MappedCellCenterData2d) (H : Heap) (r : Nat)
    (href : old.dataRef = some r) :
    mapped_cell_center_data_clone (.mapped old) H =
      .ok ({ registerAll old.BCs old.names (mkMappedCC old.grid old.dtype) with
              dataRef := some (H ++ [zeroField]).length
              aux := old.aux
              derives := old.derives
              R_fcx := old.R_fcx
              R_fcy := old.R_fcy },
           (H ++ [zeroField]) ++ [heapRead (H ++ [zeroField]) r]) := by
  simp only [mapped_cell_center_data_clone, href, create, heapAlloc, mkMappedCC]

/-- C6: cloning a mapped container yields an independent copy: the same
(shared) grid and dtype, every variable re-registered under its original
boundary-condition spec, auxiliary state, derived cache and both rotation
slots copied, and the field data stored in a freshly allocated heap cell
holding equal contents, so that overwriting the clone's field data leaves
the original's field data untouched. -/
theorem c6_clone_independent (old : MappedCellCenterData2d) (H : Heap)
    (r : Nat) (href : old.dataRef = some r) (hr : r < H.length)
    (hbc : ∀ nm ∈ old.names, (old.BCs.lookup nm).isSome = true) :
    ∃ new H2,
      mapped_cell_center_data_clone (.mapped old) H = .ok (new, H2) ∧
      new.grid = old.grid ∧
      new.dtype = old.dtype ∧
      new.names = old.names ∧
      (∀ nm ∈ old.names, new.BCs.lookup nm = old.BCs.lookup nm) ∧
      new.aux = old.aux ∧
      new.derives = old.derives ∧
      new.R_fcx = old.R_fcx ∧
      new.R_fcy = old.R_fcy ∧
      ∃ r2, new.dataRef = some r2 ∧ r2 ≠ r ∧
        heapRead H2 r2 = heapRead H r ∧
        ∀ a : FieldArr, heapRead (heapWrite H2 r2 a) r = heapRead H r := by
  have hreg := registerAll_eq old.BCs old.names (mkMappedCC old.grid old.dtype)
  have hrlt : r < (H ++ [zeroField]).length := by
    simp [List.length_append]
    omega
  refine ⟨_, _, clone_mapped_eq old H r href, ?_, ?_, ?_, ?_, ?_, ?_, ?_, ?_,
    ⟨(H ++ [zeroField]).length, rfl, ?_, ?_, ?_⟩⟩
  · rw [hreg]
    rfl
  · rw [hreg]
    rfl
  · rw [hreg]
    rfl
  · intro nm hmem
    obtain ⟨b, hb⟩ := Option.isSome_iff_exists.mp (hbc nm hmem)
    have hl := lookup_map_self old.names
      (fun a => (old.BCs.lookup a).getD defaultBC) nm hmem
    rw [hreg]
    simp only [mkMappedCC]
    simp [hl, hb]
  · rfl
  · rfl
  · rfl
  · rfl
  · simp [List.length_append]
    omega
  · rw [heapRead_alloc_last, heapRead_append _ _ _ hr]
  · intro a
    rw [heapRead_write_ne _ _ _ _ (by omega : (H ++ [zeroField]).length ≠ r),
      heapRead_append _ _ _ hrlt, heapRead_append _ _ _ hr]

/-- C6, witness: the concrete one-variable container on the one-array heap. -/
theorem c6_clone_independent_witness :
    oldSample.dataRef = some 0 ∧ 0 < heapSample.length ∧
    ∃ new H2,
      mapped_cell_center_data_clone (.mapped oldSample) heapSample =
        .ok (new, H2) ∧
      new.grid = oldSample.grid ∧
      new.dtype = oldSample.dtype ∧
      new.names = oldSample.names ∧
      (∀ nm ∈ oldSample.names, new.BCs.lookup nm = oldSample.BCs.lookup nm) ∧
      new.aux = oldSample.aux ∧
      new.derives = oldSample.derives ∧
      new.R_fcx = oldSample.R_fcx ∧
      new.R_fcy = oldSample.R_fcy ∧
      ∃ r2, new.dataRef = some r2 ∧ r2 ≠ 0 ∧
        heapRead H2 r2 = heapRead heapSample 0 ∧
        ∀ a : FieldArr, heapRead (heapWrite H2 r2 a) 0 = heapRead heapSample 0 :=
  ⟨rfl, by decide,
   c6_clone_independent oldSample heapSample 0 rfl (by decide) (by decide)⟩

/-- C7: cloning anything that is not a MappedCellCenterData2d fails fatally
with the message naming the clone operation, and no partial clone is
returned. -/
theorem c7_clone_rejects_plain (d : PlainCellCenterData2d) (H : Heap) :
    mapped_cell_center_data_clone (.plain d) H = .error cloneFailMsg := rfl

/-- C8: a container's rotation slots are empty from construction (and stay
empty through variable registration and storage creation) until
`make_rotation_matrices` is invoked; each invocation stores the grid's two
rotation-matrix functions applied to the layout, and a second invocation
recomputes and replaces both slots. -/
theorem c8_rotation_slot_lifecycle (g : MappedGrid2d) (dt : String)
    (c : MappedCellCenterData2d) (iv iv2 : Ivars) (nm : String) (bc : BCSpec)
    (H : Heap) :
    (mkMappedCC g dt).R_fcx = RotSlot.empty ∧
    (mkMappedCC g dt).R_fcy = RotSlot.empty ∧
    (register_var c nm bc).R_fcx = c.R_fcx ∧
    (register_var c nm bc).R_fcy = c.R_fcy ∧
    (create c H).1.R_fcx = c.R_fcx ∧
    (create c H).1.R_fcy = c.R_fcy ∧
    (make_rotation_matrices c iv).R_fcx =
      RotSlot.built (c.grid.R_fcx iv.nvar iv.ixmom iv.iymom) ∧
    (make_rotation_matrices c iv).R_fcy =
      RotSlot.built (c.grid.R_fcy iv.nvar iv.ixmom iv.iymom) ∧
    (make_rotation_matrices (make_rotation_matrices c iv) iv2).R_fcx =
      RotSlot.built (c.grid.R_fcx iv2.nvar iv2.ixmom iv2.iymom) ∧
    (make_rotation_matrices (make_rotation_matrices c iv) iv2).R_fcy =
      RotSlot.built (c.grid.R_fcy iv2.nvar iv2.ixmom iv2.iymom) :=
  ⟨rfl, rfl, rfl, rfl, rfl, rfl, rfl, rfl, rfl, rfl⟩

/-- C9: `make_rotation_matrices` is deterministic in the layout and the
grid state: a second call with the same layout leaves the container (and in
particular both stored arrays) identical. -/
theorem c9_recompute_deterministic (c : MappedCellCenterData2d) (iv : Ivars) :
    make_rotation_matrices (make_rotation_matrices c iv) iv =
      make_rotation_matrices c iv ∧
    (make_rotation_matrices (make_rotation_matrices c iv) iv).R_fcx =
      (make_rotation_matrices c iv).R_fcx ∧
    (make_rotation_matrices (make_rotation_matrices c iv) iv).R_fcy =
      (make_rotation_matrices c iv).R_fcy :=
  ⟨rfl, rfl, rfl⟩

/-- C10: `physical_coords` applies the two map components elementwise to the
supplied coordinate arrays, and with no arguments it defaults to the grid's
cell-center coordinate arrays x2d and y2d. -/
theorem c10_physical_coords (m : MapFunc) (g : Grid2d)
    (xs ys : Nat → Nat → ℝ) :
    physical_coords m g (some xs) (some ys) =
      (fun i j => m.f0 (xs i j) (ys i j), fun i j => m.f1 (xs i j) (ys i j)) ∧
    physical_coords m g none none =
      (fun i j => m.f0 (g.x2d i j) (g.y2d i j),
       fun i j => m.f1 (g.x2d i j) (g.y2d i j)) :=
  ⟨rfl, rfl⟩

end Pyro

end
